import Mathlib

/-!
Verification of the session state machine and profile compiler of the
Financial Planner chat application (src/qachat.py).

The embedding models the three per-session buffers kept in session state
(the display transcript chat_history, the model-native model_history, and
the chat_session handle), the reset operation, the remote-call wrapper
get_gemini_response, and the chat-input handler at the bottom of the module
(one submission = one full re-execution pass of that handler).

External behaviour of the remote generative-AI service is abstracted by a
RemoteOutcome oracle: whether send_message raises, which reply fragments the
stream yields, and what reading the canonical history off the handle returns
afterwards.
-/

deriving instance DecidableEq for Except

/-- Entries of the model-native history buffer are opaque values owned by the
remote service; modelled as strings. -/
abbrev HistEntry := String

/-- One streamed reply fragment (a chunk of the response iterator).
Reading chunk.text either yields a string or raises ValueError, which the
handler catches per fragment. -/
inductive Chunk where
  | ok (t : String) : Chunk
  | err : Chunk
deriving DecidableEq, Repr

/-- The text of a fragment when it decodes, none when reading it raises. -/
def Chunk.decoded : Chunk → Option String
  | .ok t => some t
  | .err => none

/-- The chat object stored in session state (the Session Handle): created by
model.start_chat seeded with the current model history and the system
instruction; field historyRead is what reading chat.history after the
exchange attempt returns, or the exception text when that read raises. -/
structure Chat where
  instruction : String
  seeded : List HistEntry
  historyRead : Except String (List HistEntry)
deriving DecidableEq, Repr

/-- The per-session mutable state: chat_history is the display transcript of
(role, text) pairs with roles "You" and "Bot"; model_history mirrors the
remote canonical history; chat_session is the handle (None initially);
errors collects the inline messages surfaced through st.error. -/
structure AppState where
  chat_history : List (String × String)
  model_history : List HistEntry
  chat_session : Option Chat
  errors : List String
deriving DecidableEq, Repr

/-- Oracle for one exchange with the remote service: send is the outcome of
chat.send_message (the exception text when it raises, the fragment list of
the returned stream otherwise); historyRead is the outcome of reading
chat.history after a completed exchange. -/
structure RemoteOutcome where
  send : Except String (List Chunk)
  historyRead : Except String (List HistEntry)
deriving DecidableEq, Repr

/-- reset_history (qachat.py lines 24-27): clears both the displayed chat
history and the model-native history; nothing else is touched. -/
def reset_history (s : AppState) : AppState :=
  { s with chat_history := [], model_history := [] }

/-- get_gemini_response (qachat.py lines 33-55): re-creates the model with
the system instruction, starts a chat seeded with the saved model history,
stores the chat object in session state, then requests the streamed reply.
The assignment to chat_session happens before send_message, so on a raising
send the freshly created handle (whose history is still the seeded history)
is already stored; the exception is caught, an inline error is surfaced and
None is returned. -/
def get_gemini_response (system_prompt question : String) (r : RemoteOutcome)
    (s : AppState) : AppState × Option (List Chunk) :=
  match r.send with
  | .ok chunks =>
      let chat : Chat := ⟨system_prompt, s.model_history, r.historyRead⟩
      ({ s with chat_session := some chat }, some chunks)
  | .error e =>
      let chat : Chat := ⟨system_prompt, s.model_history, .ok s.model_history⟩
      ({ s with chat_session := some chat,
                errors := s.errors ++ ["An API error occurred: " ++ e] }, none)

/-- One step of stream consumption (qachat.py lines 198-205): when reading
chunk.text raises ValueError the fragment is skipped; when it yields a
non-empty string the text is concatenated onto the running reply buffer. -/
def stream_step (acc : String) (c : Chunk) : String :=
  match c.decoded with
  | some t => if t ≠ "" then acc ++ t else acc
  | none => acc

/-- The running reply buffer after consuming the whole stream (the final
value of the full_response variable of the handler). -/
def full_response (chunks : List Chunk) : String :=
  chunks.foldl stream_step ""

/-- The chat-input handler (qachat.py lines 179-218), one submission:
append the user message to the transcript; call get_gemini_response; when a
stream came back, consume it to exhaustion and append the accumulated reply
as a bot entry; finally, when a chat object is stored, copy its history into
model_history, surfacing an inline error when that read raises. -/
def submit (system_prompt prompt : String) (r : RemoteOutcome)
    (s : AppState) : AppState :=
  let s1 := { s with chat_history := s.chat_history ++ [("You", prompt)] }
  let res := get_gemini_response system_prompt prompt r s1
  let s2 := res.1
  let s3 :=
    match res.2 with
    | some chunks =>
        { s2 with chat_history := s2.chat_history ++ [("Bot", full_response chunks)] }
    | none => s2
  match s3.chat_session with
  | some chat =>
      match chat.historyRead with
      | .ok h => { s3 with model_history := h }
      | .error e => { s3 with errors := s3.errors ++ ["Error saving model history: " ++ e] }
  | none => s3

/-- The system prompt template (qachat.py lines 134-148), an f-string over
the seven sidebar selections; knowledge, goal and risk_tolerance are
interpolated a second time in the tailoring paragraph. -/
def system_prompt (age_group income interest_rate risk_tolerance goal
    time_horizon knowledge : String) : String :=
  "\nYou are a highly qualified and ethical Financial Planner. Your specialization is creating customized financial plans.\nYour goal is to provide safe, realistic, and personalized advice based on the user\x27s financial profile:\n- **Age Group:** " ++
  (age_group ++ ("\n- **Monthly Income:** " ++
  (income ++ (" (Rupees)\n- **Average Debt Interest Rate:** " ++
  (interest_rate ++ ("\n- **Risk Tolerance:** " ++
  (risk_tolerance ++ ("\n- **Primary Financial Goal:** " ++
  (goal ++ ("\n- **Investment Time Horizon:** " ++
  (time_horizon ++ ("\n- **Financial Knowledge Level:** " ++
  (knowledge ++ ("\n\nAlways tailor your response to these settings. For example, if \x27Average Debt Interest Rate\x27 is \x27Over 15%\x27, prioritize debt payoff methods (like Avalanche or Snowball) over new investments. For a \x2718-25 (Young Professional)\x27, suggest higher risk/equity exposure. For a \x2751+ (Pre/Post Retirement)\x27, suggest conservative, income-generating instruments. Use a tone appropriate for a user with a " ++
  (knowledge ++ (" level of knowledge. Provide clear steps and actionable recommendations focused on achieving the user\x27s " ++
  (goal ++ (" within a " ++
  (risk_tolerance ++ " risk framework. If the user asks for investment advice, prioritize safety and diversification. DO NOT provide specific buy/sell recommendations, only general asset allocation advice.\n\nCRITICAL INSTRUCTION: When providing investment or financial product recommendations, **ALWAYS format them as a numbered or bulleted list** for the clearest possible output, explaining how each option aligns with the user\x27s profile.\n")))))))))))))))))))

/-- A string occurs verbatim inside another. -/
def containsVerbatim (hay need : String) : Prop :=
  ∃ pre post, hay = pre ++ need ++ post

/-- Specification-side reading of the stream contract: the in-order
concatenation of the texts of all yielded fragments that decode. -/
def concat_fragments : List Chunk → String
  | [] => ""
  | .ok t :: rest => t ++ concat_fragments rest
  | .err :: rest => concat_fragments rest

/-- Scenario profile selection from the specification (section 8): age. -/
def scenario_age : String := "18-25 (Young Professional)"

/-- Scenario selection: monthly income band. -/
def scenario_income : String := "₹20,000 - ₹50,000"

/-- Scenario selection: average debt interest band. -/
def scenario_rate : String := "None (No significant debt)"

/-- Scenario selection: risk tolerance. -/
def scenario_risk : String := "Aggressive (High growth, high risk)"

/-- Scenario selection: primary financial goal. -/
def scenario_goal : String := "General Wealth Building"

/-- Scenario selection: investment time horizon. -/
def scenario_horizon : String := "Long-term (10+ years)"

/-- Scenario selection: financial knowledge level. -/
def scenario_knowledge : String := "Novice"

/-! ### Helper lemmas -/

theorem foldl_stream_step (l : List Chunk) (acc : String) :
    l.foldl stream_step acc = acc ++ concat_fragments l := by
  induction l generalizing acc with
  | nil => simp [concat_fragments]
  | cons c rest ih =>
      cases c with
      | ok t =>
          by_cases ht : t = ""
          · subst ht
            simp [stream_step, Chunk.decoded, concat_fragments, ih]
          · simp [stream_step, Chunk.decoded, concat_fragments, ht, ih,
              String.append_assoc]
      | err => simp [stream_step, Chunk.decoded, concat_fragments, ih]

theorem full_response_eq_concat (chunks : List Chunk) :
    full_response chunks = concat_fragments chunks := by
  simpa [full_response] using foldl_stream_step chunks ""

theorem concat_fragments_append (l1 l2 : List Chunk) :
    concat_fragments (l1 ++ l2) = concat_fragments l1 ++ concat_fragments l2 := by
  induction l1 with
  | nil => simp [concat_fragments]
  | cons c rest ih =>
      cases c with
      | ok t => simp [concat_fragments, ih, String.append_assoc]
      | err => simp [concat_fragments, ih]

theorem submit_ok_ok (s : AppState) (instr q : String) (chunks : List Chunk)
    (postH : List HistEntry) :
    (submit instr q ⟨.ok chunks, .ok postH⟩ s).chat_history
      = s.chat_history ++ [("You", q), ("Bot", full_response chunks)] ∧
    (submit instr q ⟨.ok chunks, .ok postH⟩ s).model_history = postH ∧
    (submit instr q ⟨.ok chunks, .ok postH⟩ s).errors = s.errors ∧
    (submit instr q ⟨.ok chunks, .ok postH⟩ s).chat_session
      = some ⟨instr, s.model_history, .ok postH⟩ := by
  refine ⟨?_, ?_, ?_, ?_⟩ <;> simp [submit, get_gemini_response]

theorem containsVerbatim_head (need rest : String) :
    containsVerbatim (need ++ rest) need :=
  ⟨"", rest, by rw [String.empty_append]⟩

theorem containsVerbatim_cons (x : String) {hay need : String}
    (h : containsVerbatim hay need) : containsVerbatim (x ++ hay) need := by
  obtain ⟨p, q, hpq⟩ := h
  exact ⟨x ++ p, q, by rw [hpq, ← String.append_assoc, ← String.append_assoc]⟩

/-! ### Claim theorems -/

/-- Claim C1: for every submission whose remote exchange succeeds and whose
stream is consumed to exhaustion (send returns a fragment list and the
subsequent history read yields the canonical post-exchange history), the
transcript grows by exactly two entries, first the user message, then the
accumulated assistant reply, and the model history is replaced wholesale
with the canonical post-exchange history. -/
theorem C1_submit_success_appends_two_and_replaces_history
    (s : AppState) (instr q : String) (chunks : List Chunk)
    (postH : List HistEntry) :
    (submit instr q ⟨.ok chunks, .ok postH⟩ s).chat_history
      = s.chat_history ++ [("You", q), ("Bot", full_response chunks)] ∧
    (submit instr q ⟨.ok chunks, .ok postH⟩ s).model_history = postH :=
  ⟨(submit_ok_ok s instr q chunks postH).1,
   (submit_ok_ok s instr q chunks postH).2.1⟩

/-- Claim C2: for every submission whose remote call raises (authentication,
quota or network failure), the transcript grows by exactly the one user
entry, no assistant entry is added, and the model history keeps its
pre-submission value. -/
theorem C2_submit_failure_user_only_history_unchanged
    (s : AppState) (instr q e : String)
    (hr : Except String (List HistEntry)) :
    (submit instr q ⟨.error e, hr⟩ s).chat_history
      = s.chat_history ++ [("You", q)] ∧
    (submit instr q ⟨.error e, hr⟩ s).model_history = s.model_history := by
  constructor <;> simp [submit, get_gemini_response]

/-- Claim C3: for every successful stream, the text of the assistant
transcript entry appended at exhaustion equals exactly the in-order
concatenation of all yielded fragments that decode. -/
theorem C3_assistant_text_is_fragment_concat
    (s : AppState) (instr q : String) (chunks : List Chunk)
    (postH : List HistEntry) :
    (submit instr q ⟨.ok chunks, .ok postH⟩ s).chat_history
      = s.chat_history ++ [("You", q), ("Bot", concat_fragments chunks)] := by
  rw [← full_response_eq_concat]
  exact (submit_ok_ok s instr q chunks postH).1

/-- Claim C5: reset clears the transcript and the model history together to
the empty sequence, is a pure state transition (side effect only), and is
idempotent. -/
theorem C5_reset_clears_both_and_idempotent (s : AppState) :
    (reset_history s).chat_history = [] ∧
    (reset_history s).model_history = [] ∧
    reset_history (reset_history s) = reset_history s :=
  ⟨rfl, rfl, rfl⟩

/-- Claim C6, counterexample: reset does not discard the session handle.
Starting from a state whose handle references an open exchange, the handle
after reset still references that same exchange and in particular is not
none. -/
theorem C6_counterexample_reset_keeps_old_handle :
    (reset_history ⟨[("You", "hi"), ("Bot", "yo")], ["h0", "h1"],
        some ⟨"sys", ["h0"], .ok ["h0", "h1"]⟩, []⟩).chat_session
      = some ⟨"sys", ["h0"], .ok ["h0", "h1"]⟩ ∧
    (reset_history ⟨[("You", "hi"), ("Bot", "yo")], ["h0", "h1"],
        some ⟨"sys", ["h0"], .ok ["h0", "h1"]⟩, []⟩).chat_session
      ≠ none :=
  ⟨rfl, fun h => Option.noConfusion h⟩

/-- Claim C6 amended: reset transitions the state to the empty transcript
and empty model history but leaves the session handle untouched, so the
handle still references the previously open remote exchange until the next
submission replaces it. -/
theorem C6_reset_empties_buffers_keeps_handle (s : AppState) :
    (reset_history s).chat_session = s.chat_session ∧
    (reset_history s).chat_history = [] ∧
    (reset_history s).model_history = [] :=
  ⟨rfl, rfl, rfl⟩

/-- Claim C4: the profile compiler is a pure, total function of the seven
selection fields: identical selections yield byte-identical instruction
text, and the instruction text contains each of the seven selected field
values verbatim. -/
theorem C4_prompt_pure_and_fields_verbatim
    (a b c d e f g a2 b2 c2 d2 e2 f2 g2 : String)
    (h : a = a2 ∧ b = b2 ∧ c = c2 ∧ d = d2 ∧ e = e2 ∧ f = f2 ∧ g = g2) :
    system_prompt a b c d e f g = system_prompt a2 b2 c2 d2 e2 f2 g2 ∧
    containsVerbatim (system_prompt a b c d e f g) a ∧
    containsVerbatim (system_prompt a b c d e f g) b ∧
    containsVerbatim (system_prompt a b c d e f g) c ∧
    containsVerbatim (system_prompt a b c d e f g) d ∧
    containsVerbatim (system_prompt a b c d e f g) e ∧
    containsVerbatim (system_prompt a b c d e f g) f ∧
    containsVerbatim (system_prompt a b c d e f g) g := by
  obtain ⟨h1, h2, h3, h4, h5, h6, h7⟩ := h
  subst h1; subst h2; subst h3; subst h4; subst h5; subst h6; subst h7
  refine ⟨rfl, ?_, ?_, ?_, ?_, ?_, ?_, ?_⟩ <;>
  · unfold system_prompt
    repeat
      first
      | exact containsVerbatim_head _ _
      | apply containsVerbatim_cons

/-- Claim C4 witness: the scenario selection of specification section 8
instantiates the purity and verbatim-containment theorem. -/
theorem C4_witness :
    (scenario_age = scenario_age ∧ scenario_income = scenario_income ∧
     scenario_rate = scenario_rate ∧ scenario_risk = scenario_risk ∧
     scenario_goal = scenario_goal ∧ scenario_horizon = scenario_horizon ∧
     scenario_knowledge = scenario_knowledge) ∧
    (system_prompt scenario_age scenario_income scenario_rate scenario_risk
        scenario_goal scenario_horizon scenario_knowledge
      = system_prompt scenario_age scenario_income scenario_rate scenario_risk
        scenario_goal scenario_horizon scenario_knowledge ∧
     containsVerbatim (system_prompt scenario_age scenario_income scenario_rate
        scenario_risk scenario_goal scenario_horizon scenario_knowledge)
        scenario_age ∧
     containsVerbatim (system_prompt scenario_age scenario_income scenario_rate
        scenario_risk scenario_goal scenario_horizon scenario_knowledge)
        scenario_income ∧
     containsVerbatim (system_prompt scenario_age scenario_income scenario_rate
        scenario_risk scenario_goal scenario_horizon scenario_knowledge)
        scenario_rate ∧
     containsVerbatim (system_prompt scenario_age scenario_income scenario_rate
        scenario_risk scenario_goal scenario_horizon scenario_knowledge)
        scenario_risk ∧
     containsVerbatim (system_prompt scenario_age scenario_income scenario_rate
        scenario_risk scenario_goal scenario_horizon scenario_knowledge)
        scenario_goal ∧
     containsVerbatim (system_prompt scenario_age scenario_income scenario_rate
        scenario_risk scenario_goal scenario_horizon scenario_knowledge)
        scenario_horizon ∧
     containsVerbatim (system_prompt scenario_age scenario_income scenario_rate
        scenario_risk scenario_goal scenario_horizon scenario_knowledge)
        scenario_knowledge) :=
  ⟨⟨rfl, rfl, rfl, rfl, rfl, rfl, rfl⟩,
   C4_prompt_pure_and_fields_verbatim scenario_age scenario_income
     scenario_rate scenario_risk scenario_goal scenario_horizon
     scenario_knowledge scenario_age scenario_income scenario_rate
     scenario_risk scenario_goal scenario_horizon scenario_knowledge
     ⟨rfl, rfl, rfl, rfl, rfl, rfl, rfl⟩⟩

/-- Claim C7, counterexample: a submission whose stream is present but
yields zero fragments does append an assistant entry (with empty text) and
does resynchronize the model history from the handle, contrary to the
claim. -/
theorem C7_counterexample_zero_fragment_stream :
    (submit "sys" "q" ⟨.ok [], .ok ["new"]⟩ ⟨[], ["old"], none, []⟩).chat_history
      = [("You", "q"), ("Bot", "")] ∧
    (submit "sys" "q" ⟨.ok [], .ok ["new"]⟩ ⟨[], ["old"], none, []⟩).model_history
      = ["new"] ∧
    (submit "sys" "q" ⟨.ok [], .ok ["new"]⟩ ⟨[], ["old"], none, []⟩).model_history
      ≠ ["old"] := by
  refine ⟨rfl, rfl, ?_⟩
  decide

/-- Claim C7 amended: when the remote call succeeds but the stream yields
zero fragments, an assistant entry with empty text is appended and the model
history is resynchronized from the handle; only a failing remote call (no
stream returned) leaves the transcript without an assistant entry. -/
theorem C7_empty_stream_appends_empty_entry
    (s : AppState) (instr q : String) (postH : List HistEntry) :
    (submit instr q ⟨.ok [], .ok postH⟩ s).chat_history
      = s.chat_history ++ [("You", q), ("Bot", "")] ∧
    (submit instr q ⟨.ok [], .ok postH⟩ s).model_history = postH := by
  have h := submit_ok_ok s instr q [] postH
  exact ⟨by simpa [full_response] using h.1, h.2.1⟩

/-- Claim C8: a fragment that fails to decode is skipped and consumption
continues: a submission whose stream contains a failing fragment yields
exactly the state of the same submission with that fragment removed, so
nothing already accumulated is discarded and the process continues
normally. -/
theorem C8_decode_failure_skipped (s : AppState) (instr q : String)
    (pre post : List Chunk) (hr : Except String (List HistEntry)) :
    submit instr q ⟨.ok (pre ++ Chunk.err :: post), hr⟩ s
      = submit instr q ⟨.ok (pre ++ post), hr⟩ s := by
  have hfr : full_response (pre ++ Chunk.err :: post)
      = full_response (pre ++ post) := by
    rw [full_response_eq_concat, full_response_eq_concat,
      concat_fragments_append, concat_fragments_append]
    rfl
  cases hr <;> simp [submit, get_gemini_response, hfr]

/-- Claim C9, counterexample: after a submission whose remote call raises
with a missing credential, the session handle is not null: the freshly
created chat object was stored before send_message raised. -/
theorem C9_counterexample_handle_not_null :
    (submit "sys" "q" ⟨.error "API key not valid", .ok []⟩
        ⟨[], [], none, []⟩).chat_session
      = some ⟨"sys", [], .ok []⟩ ∧
    (submit "sys" "q" ⟨.error "API key not valid", .ok []⟩
        ⟨[], [], none, []⟩).chat_session
      ≠ none :=
  ⟨rfl, fun h => Option.noConfusion h⟩

/-- Claim C9 amended: when the remote call raises (missing credential), the
transcript holds exactly the one pending user entry and an inline error
message is surfaced, but the session handle does not remain null: it is
replaced by the freshly created handle seeded with the pre-submission model
history. -/
theorem C9_missing_credential_state (s : AppState) (instr q e : String)
    (hr : Except String (List HistEntry)) :
    (submit instr q ⟨.error e, hr⟩ s).chat_history
      = s.chat_history ++ [("You", q)] ∧
    (submit instr q ⟨.error e, hr⟩ s).errors
      = s.errors ++ ["An API error occurred: " ++ e] ∧
    (submit instr q ⟨.error e, hr⟩ s).chat_session
      = some ⟨instr, s.model_history, .ok s.model_history⟩ := by
  refine ⟨?_, ?_, ?_⟩ <;> simp [submit, get_gemini_response]

/-- Claim C10: when the stream completes and the assistant entry is
appended but reading the canonical history off the handle raises, the
assistant entry remains in the transcript, the model history keeps its
pre-submission value, the error is surfaced inline, and the session stays
usable: a following successful submission again appends its two entries and
resynchronizes the model history. -/
theorem C10_history_read_failure_keeps_transcript
    (s : AppState) (instr q e : String) (chunks : List Chunk) :
    (submit instr q ⟨.ok chunks, .error e⟩ s).chat_history
      = s.chat_history ++ [("You", q), ("Bot", full_response chunks)] ∧
    (submit instr q ⟨.ok chunks, .error e⟩ s).model_history
      = s.model_history ∧
    (submit instr q ⟨.ok chunks, .error e⟩ s).errors
      = s.errors ++ ["Error saving model history: " ++ e] ∧
    ∀ instr2 q2 chunks2 postH2,
      (submit instr2 q2 ⟨.ok chunks2, .ok postH2⟩
          (submit instr q ⟨.ok chunks, .error e⟩ s)).chat_history
        = (submit instr q ⟨.ok chunks, .error e⟩ s).chat_history
            ++ [("You", q2), ("Bot", full_response chunks2)] ∧
      (submit instr2 q2 ⟨.ok chunks2, .ok postH2⟩
          (submit instr q ⟨.ok chunks, .error e⟩ s)).model_history = postH2 := by
  refine ⟨?_, ?_, ?_, ?_⟩
  · simp [submit, get_gemini_response]
  · simp [submit, get_gemini_response]
  · simp [submit, get_gemini_response]
  · intro instr2 q2 chunks2 postH2
    exact ⟨(submit_ok_ok _ instr2 q2 chunks2 postH2).1,
           (submit_ok_ok _ instr2 q2 chunks2 postH2).2.1⟩
